import Mathlib

/-!
Verification of the audio pipeline of `src/audio.c` (vdr softhddevice-drm-gles).

The definitions below are a shallow embedding of the C source.  Machine
integers are modelled as `Nat`/`Int`; `% 4294967296` is inserted where a
`uint32_t` accumulation can wrap, and `int32wrap` models truncation of an
`int64_t` expression when it is assigned to a C `int`.  C integer division
(truncation toward zero) with a positive divisor is `cdivPos`.
-/

/-- C integer division by a positive divisor: truncation toward zero. -/
def cdivPos (a : Int) (b : Nat) : Int :=
  if 0 ≤ a then ((a.toNat / b : Nat) : Int) else -(((-a).toNat / b : Nat) : Int)

/-- Hard clamp of an `int` value into the `int16_t` range, as done by the
sample-processing loops of audio.c (`if (t < INT16_MIN) ... else if (t > INT16_MAX) ...`). -/
def clamp16 (t : Int) : Int :=
  if t < -32768 then -32768 else if t > 32767 then 32767 else t

/-- Truncation of an `int64_t` value to a 32-bit `int` (two's complement wrap),
as happens when audio.c assigns an `int64_t` expression to an `int` variable. -/
def int32wrap (x : Int) : Int :=
  (x + 2147483648) % 4294967296 - 2147483648

/-- The sentinel "no timestamp" value `INT64_C(0x8000000000000000)` used all
over audio.c, i.e. `INT64_MIN`. -/
def ptsUnknown : Int := -9223372036854775808

--------------------------------------------------------------------------
-- Sample processor: channel remix (audio.c lines 369-563)
--------------------------------------------------------------------------

/-- `AudioMono2Stereo` (audio.c:369): `out[i*2+0] = out[i*2+1] = in[i]` for
`i < frames`. -/
def AudioMono2Stereo (frames : Nat) (xs : List Int) : List Int :=
  (List.range frames).flatMap fun i => [xs.getD i 0, xs.getD i 0]

/-- `AudioStereo2Mono` (audio.c:389): `for (i = 0; i < frames; i += 2)
out[i/2] = (in[i] + in[i+1]) / 2`.  The list holds exactly the cells the C
loop writes, i.e. `out[k]` for `2*k < frames`; later cells of the C output
buffer are left unwritten by the source. -/
def AudioStereo2Mono (frames : Nat) (xs : List Int) : List Int :=
  (List.range ((frames + 1) / 2)).map fun k =>
    cdivPos (xs.getD (2 * k) 0 + xs.getD (2 * k + 1) 0) 2

/-- One frame of `AudioSurround2Stereo` (audio.c:410): the weighted left/right
accumulators of the `switch (in_chan)`; the default branch (`abort()`) is
`none`. -/
def surroundFrame (inChan : Nat) (g : Nat → Int) : Option (Int × Int) :=
  match inChan with
  | 3 => some (g 0 * 600 + g 2 * 400, g 1 * 600 + g 2 * 400)
  | 4 => some (g 0 * 600 + g 2 * 400, g 1 * 600 + g 3 * 400)
  | 5 => some (g 0 * 500 + g 2 * 200 + g 4 * 300, g 1 * 500 + g 3 * 200 + g 4 * 300)
  | 6 => some (g 0 * 400 + g 2 * 200 + g 4 * 300 + g 5 * 100,
               g 1 * 400 + g 3 * 200 + g 4 * 300 + g 5 * 100)
  | 7 => some (g 0 * 400 + g 2 * 200 + g 4 * 300 + g 5 * 100,
               g 1 * 400 + g 3 * 200 + g 4 * 300 + g 6 * 100)
  | 8 => some (g 0 * 400 + g 2 * 150 + g 4 * 250 + g 5 * 100 + g 6 * 100,
               g 1 * 400 + g 3 * 150 + g 4 * 250 + g 5 * 100 + g 7 * 100)
  | _ => none

/-- `AudioSurround2Stereo` (audio.c:410): per frame, mix `in_chan` input
samples into `l`/`r`, emit `l/1000` and `r/1000`, advance the input by
`in_chan`.  `none` models the `abort()` of the default branch. -/
def AudioSurround2Stereo (inChan : Nat) : Nat → List Int → Option (List Int)
  | 0, _ => some []
  | frames + 1, xs =>
    match surroundFrame inChan (fun i => xs.getD i 0) with
    | none => none
    | some (l, r) =>
      match AudioSurround2Stereo inChan frames (xs.drop inChan) with
      | none => none
      | some rest => some (cdivPos l 1000 :: cdivPos r 1000 :: rest)

/-- `AudioUpmix` (audio.c:490): copy the existing channels of each frame and
zero-fill the missing ones. -/
def AudioUpmix (inChan : Nat) : Nat → List Int → Nat → List Int
  | 0, _, _ => []
  | frames + 1, xs, outChan =>
    ((List.range inChan).map fun i => xs.getD i 0)
      ++ List.replicate (outChan - inChan) 0
      ++ AudioUpmix inChan frames (xs.drop inChan) outChan

/-- `AudioResample` (audio.c:521): dispatch on `in_chan * 8 + out_chan`.
The result carries an error flag (`true` for the default branch, which plays
silence and reports an error); `none` models a crash (`abort()` reached inside
`AudioSurround2Stereo`). -/
def AudioResample (inChan frames : Nat) (xs : List Int) (outChan : Nat) :
    Option (List Int × Bool) :=
  let n := inChan * 8 + outChan
  if n = 9 ∨ n = 18 ∨ n = 27 ∨ n = 36 ∨ n = 45 ∨ n = 54 ∨ n = 63 ∨ n = 72 then
    some (xs.take (frames * inChan), false)
  else if n = 17 then
    some (AudioStereo2Mono frames xs, false)
  else if n = 10 then
    some (AudioMono2Stereo frames xs, false)
  else if n = 26 ∨ n = 34 ∨ n = 42 ∨ n = 50 ∨ n = 58 ∨ n = 66 then
    (AudioSurround2Stereo inChan frames xs).map fun ys => (ys, false)
  else if n = 46 ∨ n = 32 ∨ n = 48 ∨ n = 56 then
    some (AudioUpmix inChan frames xs outChan, false)
  else
    some (List.replicate (frames * outChan) 0, true)

--------------------------------------------------------------------------
-- Sample processor: dynamic compression (audio.c lines 268-316)
--------------------------------------------------------------------------

/-- `AudioCompressor` (audio.c:268).  State is the smoothed factor
`AudioCompressionFactor` together with the configured maximum
`AudioMaxCompression`; the call returns the new factor and the (in-place
rewritten) sample block.  A silent block returns early leaving both
unchanged. -/
def AudioCompressor (factor maxComp : Int) (samples : List Int) :
    Int × List Int :=
  let maxSample := samples.foldl (fun m s => max m s.natAbs) 0
  if maxSample = 0 then
    (factor, samples)
  else
    let instF : Int := ((32767 * 1000) / maxSample : Nat)
    let f1 := cdivPos (factor * 950 + instF * 50) 1000
    let f2 := if instF < f1 then instF else f1
    let f3 := if maxComp < f2 then maxComp else f2
    (f3, samples.map fun s => clamp16 (cdivPos (s * f3) 1000))

--------------------------------------------------------------------------
-- Sample processor: loudness normalizer (audio.c lines 156-260)
--------------------------------------------------------------------------

/-- Module state of the normalizer: the 128-entry `AudioNormAverage` table
(`uint32_t` values, indexed mod 128), `AudioNormIndex`, `AudioNormReady`,
`AudioNormCounter` and the current `AudioNormalizeFactor`. -/
structure NormState where
  average : Nat → Nat
  index : Nat
  ready : Nat
  counter : Nat
  factor : Int
deriving Inhabited

/-- One sample of the accumulation loop of `AudioNormalizer`:
`avg += (t * t) / AudioNormSamples` on a `uint32_t` accumulator. -/
def normAccum (a : Nat) (t : Int) : Nat :=
  (a + (t * t).toNat / 4096) % 4294967296

/-- Sum of `AudioNormAverage[i] / AudioNormMaxIndex` over the whole table,
on a `uint32_t` accumulator (audio.c:201-204). -/
def normHistMean (avg : Nat → Nat) : Nat :=
  (List.range 128).foldl (fun a i => (a + avg i / 128) % 4294967296) 0

/-- Block-completion step of `AudioNormalizer` (audio.c:197-228): executed
when `AudioNormCounter` reaches `AudioNormSamples`.  While the history is not
yet full only `AudioNormReady` is bumped; afterwards the factor is smoothed
toward `((INT16_MAX / 8) * 1000) / sqrt(avg)` and clamped, but only when the
history mean is positive.  In every case the index advances circularly, the
counter is cleared and the new slot is zeroed. -/
def normBlockDone (maxNorm : Int) (st : NormState) : NormState :=
  let st1 :=
    if st.ready < 128 then
      { st with ready := st.ready + 1 }
    else
      let avg := normHistMean st.average
      if 0 < avg then
        let factor : Int := ((4095 * 1000 / Nat.sqrt avg : Nat) : Int)
        let f1 := cdivPos (st.factor * 500 + factor * 500) 1000
        let f2 := if f1 < 100 then (100 : Int) else f1
        let f3 := if maxNorm < f2 then maxNorm else f2
        { st with factor := f3 }
      else
        st
  let idx := (st1.index + 1) % 128
  { st1 with index := idx, counter := 0,
             average := Function.update st1.average idx 0 }

/-- The `do { ... } while (l > 0)` accumulation loop of `AudioNormalizer`
(audio.c:183-231), for states with `counter < 4096`.  The chunk size
`n = min l (4096 - counter)` makes the counter hit the block boundary
exactly, where `normBlockDone` resets it to 0, so the invariant is
maintained. -/
def normLoopMain (maxNorm : Int) (st : NormState) (l : List Int)
    (h : st.counter < 4096) : NormState :=
  if hl : l = [] then st
  else
    if hc : 4096 ≤ st.counter + min l.length (4096 - st.counter) then
      normLoopMain maxNorm
        (normBlockDone maxNorm
          { st with
            average := Function.update st.average st.index
              ((l.take (min l.length (4096 - st.counter))).foldl normAccum
                (st.average st.index)),
            counter := st.counter + min l.length (4096 - st.counter) })
        (l.drop (min l.length (4096 - st.counter)))
        (by simp [normBlockDone])
    else
      normLoopMain maxNorm
        { st with
          average := Function.update st.average st.index
            ((l.take (min l.length (4096 - st.counter))).foldl normAccum
              (st.average st.index)),
          counter := st.counter + min l.length (4096 - st.counter) }
        (l.drop (min l.length (4096 - st.counter)))
        (by simp only [not_le] at hc; simpa using hc)
termination_by l.length
decreasing_by
  all_goals
    simp only [List.length_drop]
    have hn : 1 ≤ min l.length (4096 - st.counter) := by
      rcases l with _ | ⟨x, l⟩
      · exact absurd rfl hl
      · simp only [List.length_cons]
        omega
    omega

/-- Entry point of the accumulation loop.  For the (unreachable in normal
operation) case `counter >= 4096`, the first do-while iteration consumes no
samples (`n = 4096 - counter <= 0`), runs the block-completion code and
continues; afterwards the `counter < 4096` invariant of `normLoopMain`
holds. -/
def normLoop (maxNorm : Int) (st : NormState) (l : List Int) : NormState :=
  if h : st.counter < 4096 then normLoopMain maxNorm st l h
  else
    if l = [] then normBlockDone maxNorm st
    else normLoopMain maxNorm (normBlockDone maxNorm st) l (by simp [normBlockDone])

/-- `AudioNormalizer` (audio.c:171): run the block-energy accumulation loop
over the sample buffer, then scale every sample by the (possibly updated)
`AudioNormalizeFactor` with hard clamping.  `maxNorm` is the configured
`AudioMaxNormalize`. -/
def AudioNormalizer (maxNorm : Int) (st : NormState) (samples : List Int) :
    NormState × List Int :=
  let st1 := normLoop maxNorm st samples
  (st1, samples.map fun s => clamp16 (cdivPos (s * st1.factor) 1000))

/-- `AudioResetNormalizer` (audio.c:250): clear counter, ready flag and the
whole average table, and restart the factor at 1.000 (the index is left
unchanged by the source). -/
def AudioResetNormalizer (st : NormState) : NormState :=
  { st with counter := 0, ready := 0, average := fun _ => 0, factor := 1000 }

--------------------------------------------------------------------------
-- Ring slot pool and sync controller (audio.c lines 763-886, 1964-2268)
--------------------------------------------------------------------------

/-- One `AudioRingRing` slot (audio.c:768).  The `RingBuffer` field is
modelled from the spec: ringbuffer.c is part of the repository but not among
the given sources; section 3 of the spec describes it as a byte ring buffer
owning fixed storage, so only its used-byte count is represented
(`RingBufferUsedBytes`); `RingBufferReset` clears it to 0 and
`RingBufferReadAdvance k` removes `k` buffered bytes. -/
structure AudioSlot where
  flushBuffers : Bool
  passthrough : Bool
  packetSize : Int
  hwSampleRate : Nat
  hwChannels : Nat
  inSampleRate : Nat
  inChannels : Nat
  pts : Int
  bufferUsed : Nat
deriving Inhabited, DecidableEq

/-- Module state of the ring pool and the sync controller: the eight slots
(total function, indexed mod `AUDIO_RING_MAX = 8`), write/read indices, the
atomic filled counter, and the globals `AudioRunning`, `AudioVideoIsReady`,
`AudioSkip`, `AudioBufferTime`, `AudioStartThreshold`, `VideoAudioDelay`
and the presence of the ALSA PCM handle. -/
structure AudioState where
  ring : Nat → AudioSlot
  ringWrite : Nat
  ringRead : Nat
  ringFilled : Nat
  running : Bool
  videoIsReady : Bool
  skip : Int
  bufferTime : Int
  startThreshold : Nat
  videoAudioDelay : Int
  alsaHandle : Bool

/-- The sorted `AudioRatesTable` (audio.c:140). -/
def AudioRatesTable : List Nat := [44100, 48000, 192000]

/-- The rate search loop of `AudioRingAdd` (audio.c:805-812), unrolled over
the three entries of `AudioRatesTable`: succeed on an exact match, break (and
fail) as soon as a larger table entry is seen. -/
def findRateIdx (rate : Nat) : Option Nat :=
  if rate = 44100 then some 0
  else if rate < 44100 then none
  else if rate = 48000 then some 1
  else if rate < 48000 then none
  else if rate = 192000 then some 2
  else none

/-- Error results of `AudioRingAdd` (the source returns -1 for all three,
distinguished by the logged message). -/
inductive AddErr where
  | unsupportedRate
  | unsupportedChannels
  | ringFull
deriving DecidableEq

/-- `AudioRingAdd` (audio.c:800): check the rate table, then the channel
matrix (`AudioChannelMatrix`, passed as `matrix`), then the filled counter;
on success advance the write index mod 8, reinitialise that slot, reset its
ring buffer, publish by incrementing the filled counter and wake the thread
(`AudioRunning = 1`). -/
def AudioRingAdd (matrix : Nat → Nat → Nat) (st : AudioState)
    (sampleRate channels : Nat) (passthrough : Bool) :
    Except AddErr AudioState :=
  match findRateIdx sampleRate with
  | none => .error .unsupportedRate
  | some u =>
    if matrix u channels = 0 then .error .unsupportedChannels
    else if st.ringFilled = 8 then .error .ringFull
    else
      let w := (st.ringWrite + 1) % 8
      .ok { st with
        ringWrite := w,
        ring := Function.update st.ring w
          { flushBuffers := false, passthrough := passthrough, packetSize := 0,
            inSampleRate := sampleRate, inChannels := channels,
            hwSampleRate := sampleRate, hwChannels := matrix u channels,
            pts := ptsUnknown, bufferUsed := 0 },
        ringFilled := st.ringFilled + 1,
        running := true }

/-- A sequence of `AddFormat` calls with no consumer draining the pool; a
failing call leaves the state unchanged (all checks precede all mutations in
the source). -/
def addFormatSeq (matrix : Nat → Nat → Nat) (st : AudioState)
    (calls : List (Nat × Nat × Bool)) : AudioState :=
  calls.foldl
    (fun s c =>
      match AudioRingAdd matrix s c.1 c.2.1 c.2.2 with
      | .ok s2 => s2
      | .error _ => s) st

/-- `AlsaGetDelay` (audio.c:1302): 0 without a PCM handle or hardware rate;
otherwise the (clamped non-negative) hardware delay in frames converted to
90 kHz units.  `delayFrames` is the value reported by `snd_pcm_delay`. -/
def AlsaGetDelay (st : AudioState) (delayFrames : Int) : Int :=
  if st.alsaHandle = false ∨ (st.ring st.ringRead).hwSampleRate = 0 then 0
  else
    let d := if delayFrames < 0 then 0 else delayFrames
    ((d.toNat * 90 * 1000 / (st.ring st.ringRead).hwSampleRate : Nat) : Int)

/-- `AudioGetDelay` (audio.c:2173): 0 when not running, not set up, or when
any further ring slot is pending; otherwise hardware delay plus the read
slot's buffered bytes converted to 90 kHz units. -/
def AudioGetDelay (st : AudioState) (delayFrames : Int) : Int :=
  if st.running = false then 0
  else if (st.ring st.ringRead).hwSampleRate = 0 then 0
  else if st.ringFilled ≠ 0 then 0
  else
    AlsaGetDelay st delayFrames +
      (((st.ring st.ringRead).bufferUsed * 90 * 1000 /
        ((st.ring st.ringRead).hwSampleRate * (st.ring st.ringRead).hwChannels * 2) : Nat) : Int)

/-- `AudioGetClock` (audio.c:2201): the read slot's pts minus the delay when
the pts is known and the delay is non-zero, the sentinel otherwise.  The
source's pass-through and pcm branches return the same expression. -/
def AudioGetClock (st : AudioState) (delayFrames : Int) : Int :=
  if (st.ring st.ringRead).pts ≠ ptsUnknown then
    if AudioGetDelay st delayFrames ≠ 0 then
      (st.ring st.ringRead).pts + 0 * 90 - AudioGetDelay st delayFrames
    else ptsUnknown
  else ptsUnknown

/-- `AudioVideoReady` (audio.c:1964).  `int32wrap` models the assignments of
`int64_t` expressions to the C `int skip`; the `(unsigned)skip` comparison
and the read-advance use the wrapped value reduced mod 2^32, exactly the
32-bit unsigned reinterpretation the source performs. -/
def AudioVideoReady (st : AudioState) (pts : Int) : AudioState :=
  if pts = ptsUnknown then st
  else if (st.ring st.ringWrite).hwSampleRate = 0 ∨
      (st.ring st.ringWrite).hwChannels = 0 ∨
      (st.ring st.ringWrite).pts = ptsUnknown then
    { st with videoIsReady := true }
  else
    let w := st.ring st.ringWrite
    let used := w.bufferUsed
    let audioPts : Int :=
      w.pts - ((used * 90 * 1000 / (w.hwSampleRate * w.hwChannels * 2) : Nat) : Int)
    let st1 :=
      if st.running = false then
        let skip0 := int32wrap
          (pts - 15 * 20 * 90 - st.bufferTime * 90 - audioPts + st.videoAudioDelay)
        if 0 < skip0 ∧ skip0 < 2000 * 90 then
          let sb : Nat :=
            (int32wrap ((skip0.toNat * w.hwSampleRate / 90000) * w.hwChannels * 2)
              % 4294967296).toNat
          let adv := min sb used
          let st2 := { st with
            skip := if used < sb then ((sb - used : Nat) : Int) else st.skip,
            ring := Function.update st.ring st.ringWrite
              { w with bufferUsed := used - adv } }
          if st.startThreshold < used - adv then { st2 with running := true } else st2
        else
          if st.startThreshold < used then { st with running := true } else st
      else st
    { st1 with videoIsReady := true }

/-- The skip amount in 90 kHz ticks computed by `AudioVideoReady`
(audio.c:2002-2004): `pts - 15*20*90 - AudioBufferTime*90 - audio_pts +
VideoAudioDelay`, with `audio_pts` the write slot's pts minus its buffered
bytes converted to ticks (audio.c:1985-1988). -/
def skipTicks (st : AudioState) (pts : Int) : Int :=
  pts - 15 * 20 * 90 - st.bufferTime * 90 -
    ((st.ring st.ringWrite).pts -
      (((st.ring st.ringWrite).bufferUsed * 90 * 1000 /
        ((st.ring st.ringWrite).hwSampleRate * (st.ring st.ringWrite).hwChannels * 2) : Nat) : Int)) +
    st.videoAudioDelay

/-- The byte count `AudioVideoReady` converts the skip ticks to at the write
slot's hardware format (audio.c:2011-2013). -/
def skipBytes (st : AudioState) (pts : Int) : Nat :=
  ((skipTicks st pts).toNat * (st.ring st.ringWrite).hwSampleRate / 90000) *
    (st.ring st.ringWrite).hwChannels * 2

--------------------------------------------------------------------------
-- Spec-side definition and concrete test fixtures
--------------------------------------------------------------------------

/-- Modelled from the spec: the "nearest supported rate" lookup that the spec
attributes to `AddFormat` ("looks up the nearest supported rate via the
Capability Matrix") - the entry of `AudioRatesTable` at minimal distance from
the request.  Used only to compare the spec's wording with the source. -/
def specNearestRate (rate : Nat) : Nat :=
  AudioRatesTable.foldl
    (fun best r =>
      if (max r rate - min r rate) < (max best rate - min best rate) then r else best)
    44100

/-- A concrete, fully set-up slot: 48 kHz stereo, known pts, empty buffer. -/
def testSlot : AudioSlot :=
  { flushBuffers := false, passthrough := false, packetSize := 0,
    hwSampleRate := 48000, hwChannels := 2, inSampleRate := 48000,
    inChannels := 2, pts := 90000, bufferUsed := 0 }

/-- A concrete running, fully configured module state with an empty ring. -/
def testState : AudioState :=
  { ring := fun _ => testSlot, ringWrite := 0, ringRead := 0, ringFilled := 0,
    running := true, videoIsReady := false, skip := 0, bufferTime := 336,
    startThreshold := 19200, videoAudioDelay := 0, alsaHandle := true }

/-- A concrete configured, not yet running state with 100 ms of audio
buffered in the write slot and a known write pts. -/
def pendingState : AudioState :=
  { testState with
    running := false,
    ring := fun _ => { testSlot with bufferUsed := 19200, pts := 0 } }

/-- A concrete normalizer state: full history whose entries all hold energy
128 except the current slot (0, about to be filled), factor 1000. -/
def normWitState : NormState :=
  { average := fun i => if i = 0 then 0 else 128, index := 0, ready := 128,
    counter := 0, factor := 1000 }

/-- The normalizer state after `AudioResetNormalizer`, fed `k` consecutive
all-zero 4096-sample blocks through `AudioNormalizer`. -/
def feedZeroBlocks (maxNorm : Int) : Nat → NormState
  | 0 => AudioResetNormalizer { average := fun _ => 0, index := 0, ready := 0,
                                counter := 0, factor := 0 }
  | k + 1 =>
    (AudioNormalizer maxNorm (feedZeroBlocks maxNorm k) (List.replicate 4096 0)).1

--------------------------------------------------------------------------
-- Theorems
--------------------------------------------------------------------------

theorem clamp16_lower (t : Int) : -32768 ≤ clamp16 t := by
  unfold clamp16; split <;> [omega; skip]; split <;> omega

theorem clamp16_upper (t : Int) : clamp16 t ≤ 32767 := by
  unfold clamp16; split <;> [omega; skip]; split <;> omega

theorem cdivPos_zero (b : Nat) : cdivPos 0 b = 0 := by
  simp [cdivPos]

theorem int32wrap_eq_self (x : Int) (h1 : -2147483648 ≤ x) (h2 : x < 2147483648) :
    int32wrap x = x := by
  unfold int32wrap
  omega

/-- C10: a call of `AudioVideoReady` with the sentinel "unknown" timestamp
`0x8000000000000000` returns immediately and modifies no state - in
particular the video-ready flag is untouched, no skip is computed and no
read pointer is advanced. -/
theorem AudioVideoReady_unknownPts_noop (st : AudioState) :
    AudioVideoReady st ptsUnknown = st := by
  simp [AudioVideoReady]

/-- C8 evaluation at the failing input: `AudioStereo2Mono` with 2 frames of
stereo input (4 samples) writes a single mono sample - the mean of the first
pair - instead of the mean of each of the two input pairs, because the loop
`for (i = 0; i < frames; i += 2)` steps `i` in samples but bounds it by the
frame count.  Routed through `AudioResample` (2 in / 1 out channels) the same
input loses its second frame. -/
theorem AudioStereo2Mono_drops_half_of_input :
    AudioStereo2Mono 2 [10, 20, 30, 40] = [15] ∧
    AudioStereo2Mono 2 [10, 20, 30, 40] ≠ [15, 35] ∧
    AudioResample 2 2 [10, 20, 30, 40] 1 = some ([15], false) := by
  refine ⟨by decide, by decide, by decide⟩

/-- C2 counterexample: requesting 44000 Hz.  The nearest supported rate (as
the claim reads) is 44100 Hz and the channel matrix accepts 2 channels, so
the claim predicts success with the rate mapped to 44100; `AudioRingAdd`
instead fails with the unsupported-sample-rate error - the source demands an
exact match in `AudioRatesTable`. -/
theorem AudioRingAdd_44000_not_mapped :
    specNearestRate 44000 = 44100 ∧
    (fun _ c : Nat => c) 0 2 ≠ 0 ∧
    testState.ringFilled ≠ 8 ∧
    AudioRingAdd (fun _ c => c) testState 44000 2 false =
      .error .unsupportedRate := by
  refine ⟨by decide, by decide, by decide, rfl⟩

/-- C3 counterexample: a running, fully configured state (48 kHz stereo read
slot, known pts 90000, no further slots pending) whose computed delay is 0
(empty ring buffer, hardware delay 0 frames).  None of the claim's three
sentinel conditions holds and the claim predicts `pts - delay = 90000`, but
`AudioGetClock` returns the sentinel because the source maps a zero delay to
"unknown". -/
theorem AudioGetClock_zeroDelay_sentinel :
    testState.running = true ∧
    (testState.ring testState.ringRead).hwSampleRate ≠ 0 ∧
    testState.ringFilled = 0 ∧
    (testState.ring testState.ringRead).pts - AudioGetDelay testState 0 = 90000 ∧
    AudioGetClock testState 0 = ptsUnknown ∧
    ptsUnknown ≠ 90000 := by
  refine ⟨rfl, by decide, rfl, by decide, by decide, by decide⟩

/-- C9 counterexample: the pair (2 input, 10 output channels) is not one of
the conversion cases the claim lists, so the claim predicts silence plus an
error report; but its discriminant `2 * 8 + 10 = 26` collides with the
3-channel downmix case, so `AudioResample` hands 2 channels to
`AudioSurround2Stereo`, whose default branch calls `abort()` (modelled as
`none`). -/
theorem AudioResample_2_10_aborts :
    AudioResample 2 1 [0, 0] 10 = none ∧
    (2 : Nat) ≠ 10 ∧
    ((2, 10) : Nat × Nat) ∉
      ([(2, 1), (1, 2), (3, 2), (4, 2), (5, 2), (6, 2), (7, 2), (8, 2),
        (5, 6), (3, 8), (5, 8), (6, 8)] : List (Nat × Nat)) ∧
    AudioResample 2 1 [0, 0] 10 ≠ some (List.replicate (1 * 10) 0, true) := by
  refine ⟨by decide, by decide, by decide, by decide⟩

theorem AudioRingAdd_ok_filled (matrix : Nat → Nat → Nat) (st : AudioState)
    (r c : Nat) (p : Bool) (s2 : AudioState)
    (h : AudioRingAdd matrix st r c p = .ok s2) :
    s2.ringFilled = st.ringFilled + 1 ∧ st.ringFilled ≠ 8 := by
  unfold AudioRingAdd at h
  cases hf : findRateIdx r <;> rw [hf] at h <;> dsimp only at h
  · cases h
  · rename_i u
    by_cases h1 : matrix u c = 0
    · rw [if_pos h1] at h
      cases h
    · rw [if_neg h1] at h
      by_cases h2 : st.ringFilled = 8
      · rw [if_pos h2] at h
        cases h
      · rw [if_neg h2] at h
        cases h
        exact ⟨rfl, h2⟩

theorem addFormatSeq_filled_le (matrix : Nat → Nat → Nat) :
    ∀ (calls : List (Nat × Nat × Bool)) (st : AudioState),
      st.ringFilled ≤ 8 → (addFormatSeq matrix st calls).ringFilled ≤ 8 := by
  intro calls
  induction calls with
  | nil => intro st h; simpa [addFormatSeq] using h
  | cons c cs ih =>
    intro st h
    simp only [addFormatSeq, List.foldl_cons] at *
    cases hadd : AudioRingAdd matrix st c.1 c.2.1 c.2.2 with
    | ok s2 =>
      have := AudioRingAdd_ok_filled matrix st c.1 c.2.1 c.2.2 s2 hadd
      exact ih s2 (by omega)
    | error e => exact ih st h

theorem AudioRingAdd_ringFull_iff (matrix : Nat → Nat → Nat) (st : AudioState)
    (r c : Nat) (p : Bool) :
    AudioRingAdd matrix st r c p = .error .ringFull ↔
      ((∃ u, findRateIdx r = some u ∧ matrix u c ≠ 0) ∧ st.ringFilled = 8) := by
  unfold AudioRingAdd
  cases hf : findRateIdx r
  · simp [hf]
  · rename_i u
    by_cases h1 : matrix u c = 0
    · simp [hf, h1]
    · by_cases h2 : st.ringFilled = 8 <;> simp [hf, h1, h2]

/-- C1: over any sequence of `AddFormat` (`AudioRingAdd`) calls with no
consumer draining the pool, the filled counter never exceeds
`AUDIO_RING_MAX = 8`, and a single call fails with the ring-full error
exactly when the rate and channel-matrix checks succeed and the counter
already equals 8 at entry. -/
theorem AudioRingAdd_filled_invariant (matrix : Nat → Nat → Nat)
    (st : AudioState) (calls : List (Nat × Nat × Bool))
    (h : st.ringFilled ≤ 8) :
    (addFormatSeq matrix st calls).ringFilled ≤ 8 ∧
    ∀ r c p, AudioRingAdd matrix st r c p = .error .ringFull ↔
      ((∃ u, findRateIdx r = some u ∧ matrix u c ≠ 0) ∧ st.ringFilled = 8) :=
  ⟨addFormatSeq_filled_le matrix calls st h,
   fun r c p => AudioRingAdd_ringFull_iff matrix st r c p⟩

/-- C1 witness: the invariant instantiated on a concrete empty pool and two
concrete format changes. -/
theorem AudioRingAdd_filled_invariant_witness :
    testState.ringFilled ≤ 8 ∧
    (addFormatSeq (fun _ c => c) testState
      [(48000, 2, false), (44100, 6, false)]).ringFilled ≤ 8 ∧
    ∀ r c p, AudioRingAdd (fun _ ch => ch) testState r c p = .error .ringFull ↔
      ((∃ u, findRateIdx r = some u ∧ c ≠ 0) ∧ testState.ringFilled = 8) := by
  refine ⟨by decide, ?_, ?_⟩
  · exact (AudioRingAdd_filled_invariant (fun _ c => c) testState
      [(48000, 2, false), (44100, 6, false)] (by decide)).1
  · exact (AudioRingAdd_filled_invariant (fun _ ch => ch) testState [] (by decide)).2

/-- C2 (amended): `AudioRingAdd` succeeds only for sample rates exactly
present in `AudioRatesTable` (44100, 48000, 192000) and fails with the
unsupported-rate error otherwise (no nearest-rate mapping); it fails with
the unsupported-channels error exactly when the rate matches but no
channel-matrix entry accepts the requested channel count; and on success it
advances the write index by one modulo 8, resets that slot's ring buffer,
stores the hardware channel count negotiated from the matrix, sets the
slot's pts to the unknown sentinel and increments the filled counter. -/
theorem AudioRingAdd_spec (matrix : Nat → Nat → Nat) (st : AudioState)
    (rate ch : Nat) (pt : Bool) :
    ((findRateIdx rate).isSome ↔ rate ∈ AudioRatesTable) ∧
    (findRateIdx rate = none →
      AudioRingAdd matrix st rate ch pt = .error .unsupportedRate) ∧
    (∀ u, findRateIdx rate = some u → matrix u ch = 0 →
      AudioRingAdd matrix st rate ch pt = .error .unsupportedChannels) ∧
    (∀ u, findRateIdx rate = some u → matrix u ch ≠ 0 → st.ringFilled ≠ 8 →
      AudioRingAdd matrix st rate ch pt = .ok
        { st with
          ringWrite := (st.ringWrite + 1) % 8,
          ring := Function.update st.ring ((st.ringWrite + 1) % 8)
            { flushBuffers := false, passthrough := pt, packetSize := 0,
              inSampleRate := rate, inChannels := ch,
              hwSampleRate := rate, hwChannels := matrix u ch,
              pts := ptsUnknown, bufferUsed := 0 },
          ringFilled := st.ringFilled + 1,
          running := true }) := by
  refine ⟨?_, ?_, ?_, ?_⟩
  · unfold findRateIdx
    simp only [AudioRatesTable, List.mem_cons, List.not_mem_nil, or_false]
    split_ifs <;> simp_all <;> omega
  · intro hf
    unfold AudioRingAdd
    rw [hf]
  · intro u hf h1
    unfold AudioRingAdd
    rw [hf]
    dsimp only
    rw [if_pos h1]
  · intro u hf h1 h2
    unfold AudioRingAdd
    rw [hf]
    dsimp only
    rw [if_neg h1, if_neg h2]

/-- C2 witness: a successful call on a concrete state, with all checks
discharged on concrete values. -/
theorem AudioRingAdd_spec_witness :
    AudioRingAdd (fun _ c => c) testState 48000 2 false = .ok
      { testState with
        ringWrite := (testState.ringWrite + 1) % 8,
        ring := Function.update testState.ring ((testState.ringWrite + 1) % 8)
          { flushBuffers := false, passthrough := false, packetSize := 0,
            inSampleRate := 48000, inChannels := 2,
            hwSampleRate := 48000, hwChannels := (fun _ c : Nat => c) 1 2,
            pts := ptsUnknown, bufferUsed := 0 },
        ringFilled := testState.ringFilled + 1,
        running := true } :=
  (AudioRingAdd_spec (fun _ c => c) testState 48000 2 false).2.2.2 1
    (by decide) (by decide) (by decide)

/-- C3 (amended): `AudioGetClock` returns the read slot's stored pts minus
the audio delay - hardware sink delay plus the read slot's buffered bytes,
both converted to 90 kHz units - and returns the unknown sentinel whenever
playback is not running, no hardware format is configured, further ring
slots are pending, the read slot's pts is unknown, or the computed delay is
zero. -/
theorem AudioGetClock_spec (st : AudioState) (df : Int) :
    ((st.running = false ∨ (st.ring st.ringRead).hwSampleRate = 0 ∨
      st.ringFilled ≠ 0 ∨ (st.ring st.ringRead).pts = ptsUnknown ∨
      AudioGetDelay st df = 0) → AudioGetClock st df = ptsUnknown) ∧
    ((st.ring st.ringRead).pts ≠ ptsUnknown → AudioGetDelay st df ≠ 0 →
      AudioGetClock st df = (st.ring st.ringRead).pts -
        (AlsaGetDelay st df +
          (((st.ring st.ringRead).bufferUsed * 90 * 1000 /
            ((st.ring st.ringRead).hwSampleRate * (st.ring st.ringRead).hwChannels * 2) : Nat) : Int))) := by
  constructor
  · intro h
    by_cases hp : (st.ring st.ringRead).pts = ptsUnknown
    · simp [AudioGetClock, hp]
    · have hd : AudioGetDelay st df = 0 := by
        rcases h with h | h | h | h | h
        · unfold AudioGetDelay; split_ifs <;> simp_all
        · unfold AudioGetDelay; split_ifs <;> simp_all
        · unfold AudioGetDelay; split_ifs <;> simp_all
        · exact absurd h hp
        · exact h
      simp [AudioGetClock, hp, hd]
  · intro hp hd
    have hval : AudioGetDelay st df = AlsaGetDelay st df +
        (((st.ring st.ringRead).bufferUsed * 90 * 1000 /
          ((st.ring st.ringRead).hwSampleRate * (st.ring st.ringRead).hwChannels * 2) : Nat) : Int) := by
      unfold AudioGetDelay at hd ⊢
      split_ifs at hd ⊢ <;> simp_all
    simp only [AudioGetClock, if_pos hp, if_pos hd, ← hval]
    omega

/-- C3 witness: on a concrete running state with 4800 frames of hardware
delay the clock is the stored pts (90000) minus the 9000-tick delay. -/
theorem AudioGetClock_spec_witness : AudioGetClock testState 4800 = 81000 := by
  rw [(AudioGetClock_spec testState 4800).2 (by decide) (by decide)]
  decide

theorem foldl_max_natAbs_eq_zero (l : List Int) :
    ∀ acc : Nat, l.foldl (fun m s => max m s.natAbs) acc = 0 ↔
      acc = 0 ∧ ∀ s ∈ l, s = 0 := by
  induction l with
  | nil => intro acc; simp
  | cons x xs ih =>
    intro acc
    simp only [List.foldl_cons, List.mem_cons]
    rw [ih]
    simp only [Nat.max_eq_zero_iff, Int.natAbs_eq_zero]
    constructor
    · rintro ⟨⟨h1, h2⟩, h3⟩
      exact ⟨h1, fun s hs => hs.elim (fun he => he ▸ h2) (h3 s)⟩
    · rintro ⟨h1, h2⟩
      exact ⟨⟨h1, h2 x (Or.inl rfl)⟩, fun s hs => h2 s (Or.inr hs)⟩

/-- C5: on a block with at least one non-zero sample, `AudioCompressor`
smooths the factor to `(950 * old + 50 * inst) / 1000` with
`inst = INT16_MAX * 1000 / peak`, clamps it to at most the instantaneous
factor and at most the configured maximum, and hard-clamps every scaled
output sample into the int16 range; an all-zero block leaves factor and
samples unchanged. -/
theorem AudioCompressor_spec (factor maxComp : Int) (samples : List Int) :
    ((∀ s ∈ samples, s = 0) →
      AudioCompressor factor maxComp samples = (factor, samples)) ∧
    ((∃ s ∈ samples, s ≠ 0) →
      (AudioCompressor factor maxComp samples).1 =
        min (min
          (cdivPos (factor * 950 +
            ((32767 * 1000 / samples.foldl (fun m s => max m s.natAbs) 0 : Nat) : Int) * 50)
            1000)
          ((32767 * 1000 / samples.foldl (fun m s => max m s.natAbs) 0 : Nat) : Int))
          maxComp ∧
      (AudioCompressor factor maxComp samples).2 = samples.map (fun s =>
        clamp16 (cdivPos (s * (AudioCompressor factor maxComp samples).1) 1000)) ∧
      ∀ y ∈ (AudioCompressor factor maxComp samples).2,
        -32768 ≤ y ∧ y ≤ 32767) := by
  constructor
  · intro h
    unfold AudioCompressor
    rw [if_pos ((foldl_max_natAbs_eq_zero samples 0).mpr ⟨rfl, h⟩)]
  · rintro ⟨s, hs, hsne⟩
    have hne : samples.foldl (fun m s => max m s.natAbs) 0 ≠ 0 := fun hz =>
      hsne (((foldl_max_natAbs_eq_zero samples 0).mp hz).2 s hs)
    unfold AudioCompressor
    rw [if_neg hne]
    dsimp only
    refine ⟨by split_ifs <;> omega, ?_, ?_⟩
    · rfl
    · intro y hy
      rcases List.mem_map.mp hy with ⟨x, hx, rfl⟩
      exact ⟨clamp16_lower _, clamp16_upper _⟩

/-- C5 witness: a concrete non-silent block; the theorem's hypotheses are
discharged on it and its outputs are in range. -/
theorem AudioCompressor_spec_witness :
    (∃ s ∈ ([1000, -2000] : List Int), s ≠ 0) ∧
    ∀ y ∈ (AudioCompressor 1000 3000 [1000, -2000]).2,
      -32768 ≤ y ∧ y ≤ 32767 :=
  ⟨⟨1000, by decide, by decide⟩,
   ((AudioCompressor_spec 1000 3000 [1000, -2000]).2
     ⟨1000, by decide, by decide⟩).2.2⟩

set_option maxRecDepth 4096 in
/-- C4: with a valid audio format and pts, playback not yet running, and the
skip `pts - 15*20*90 - AudioBufferTime*90 - audioClock + VideoAudioDelay`
strictly between 0 and 2 seconds (2000 * 90 ticks), `AudioVideoReady`
converts the skip to bytes at the write slot's hardware format, advances the
write slot's read pointer by `min skipBytes usedBytes`, and stores the
remainder (if any) in the `AudioSkip` debt counter. -/
theorem AudioVideoReady_skip_spec (st : AudioState) (pts : Int)
    (hr : (st.ring st.ringWrite).hwSampleRate ≠ 0)
    (hrle : (st.ring st.ringWrite).hwSampleRate ≤ 192000)
    (hch : (st.ring st.ringWrite).hwChannels ≠ 0)
    (hchle : (st.ring st.ringWrite).hwChannels ≤ 8)
    (hsp : (st.ring st.ringWrite).pts ≠ ptsUnknown)
    (hvp : pts ≠ ptsUnknown)
    (hrun : st.running = false)
    (hpos : 0 < skipTicks st pts)
    (hbnd : skipTicks st pts < 2000 * 90) :
    ((AudioVideoReady st pts).ring st.ringWrite).bufferUsed =
      (st.ring st.ringWrite).bufferUsed -
        min (skipBytes st pts) (st.ring st.ringWrite).bufferUsed ∧
    (AudioVideoReady st pts).skip =
      (if (st.ring st.ringWrite).bufferUsed < skipBytes st pts
        then ((skipBytes st pts - (st.ring st.ringWrite).bufferUsed : Nat) : Int)
        else st.skip) := by
  have hticks : int32wrap (skipTicks st pts) = skipTicks st pts :=
    int32wrap_eq_self _ (by omega) (by omega)
  have hNle : skipBytes st pts ≤ 6144000 := by
    have h1 : (skipTicks st pts).toNat ≤ 180000 := by omega
    calc skipBytes st pts
        ≤ 180000 * 192000 / 90000 * 8 * 2 := by
          unfold skipBytes
          gcongr
      _ = 6144000 := by norm_num
  have hcast : ((skipTicks st pts).toNat * (st.ring st.ringWrite).hwSampleRate /
      90000 * (st.ring st.ringWrite).hwChannels * 2 : Int) =
      ((skipBytes st pts : Nat) : Int) := by
    unfold skipBytes
    push_cast [Int.ofNat_div]
    rfl
  have hsb : (int32wrap ((skipTicks st pts).toNat *
        (st.ring st.ringWrite).hwSampleRate / 90000 *
        (st.ring st.ringWrite).hwChannels * 2 : Int) % 4294967296).toNat =
      skipBytes st pts := by
    rw [hcast, int32wrap_eq_self _ (by omega) (by omega),
      Int.emod_eq_of_lt (by omega) (by omega)]
    omega
  unfold AudioVideoReady
  rw [if_neg hvp, if_neg (by push_neg; exact ⟨hr, hch, hsp⟩)]
  rw [hrun]
  dsimp only
  rw [if_pos (rfl : (false : Bool) = false)]
  rw [show int32wrap (pts - 15 * 20 * 90 - st.bufferTime * 90 -
      ((st.ring st.ringWrite).pts -
        (((st.ring st.ringWrite).bufferUsed * 90 * 1000 /
          ((st.ring st.ringWrite).hwSampleRate * (st.ring st.ringWrite).hwChannels * 2) : Nat) : Int)) +
      st.videoAudioDelay) = skipTicks st pts from hticks]
  rw [if_pos ⟨hpos, hbnd⟩]
  rw [hsb]
  constructor
  · split <;> simp [Function.update_same]
  · split <;> rfl

/-- C4 witness: on the concrete pending state a video pts of 57240 produces a
9000-tick skip, i.e. exactly the 19200 buffered bytes, leaving no skip
debt. -/
theorem AudioVideoReady_skip_spec_witness :
    ((AudioVideoReady pendingState 57240).ring pendingState.ringWrite).bufferUsed =
      (pendingState.ring pendingState.ringWrite).bufferUsed -
        min (skipBytes pendingState 57240)
          (pendingState.ring pendingState.ringWrite).bufferUsed ∧
    (AudioVideoReady pendingState 57240).skip =
      (if (pendingState.ring pendingState.ringWrite).bufferUsed <
          skipBytes pendingState 57240
        then ((skipBytes pendingState 57240 -
          (pendingState.ring pendingState.ringWrite).bufferUsed : Nat) : Int)
        else pendingState.skip) :=
  AudioVideoReady_skip_spec pendingState 57240 (by decide) (by decide) (by decide)
    (by decide) (by decide) (by decide) (by decide) (by decide) (by decide)

theorem normLoopMain_block (maxNorm : Int) (st : NormState) (l : List Int)
    (h : st.counter < 4096) (hc0 : st.counter = 0) (hlen : l.length = 4096) :
    normLoopMain maxNorm st l h =
      normBlockDone maxNorm
        { st with
          average := Function.update st.average st.index
            (l.foldl normAccum (st.average st.index)),
          counter := st.counter + min l.length (4096 - st.counter) } := by
  have hne : l ≠ [] := by
    intro he
    rw [he] at hlen
    exact absurd hlen (by decide)
  have hmin : min l.length (4096 - st.counter) = 4096 := by omega
  have htake : l.take (min l.length (4096 - st.counter)) = l := by
    rw [hmin, ← hlen]
    exact List.take_length l
  have hdrop : l.drop (min l.length (4096 - st.counter)) = [] := by
    rw [hmin, ← hlen]
    exact List.drop_length l
  rw [normLoopMain, dif_neg hne,
    dif_pos (show 4096 ≤ st.counter + min l.length (4096 - st.counter) by omega)]
  simp only [htake, hdrop]
  rw [normLoopMain, dif_pos rfl]

theorem normBlockDone_full (maxNorm : Int) (s : NormState) (hr : s.ready = 128)
    (hm : 0 < normHistMean s.average) :
    normBlockDone maxNorm s =
      { s with
        factor :=
          (if maxNorm <
              (if cdivPos (s.factor * 500 +
                  ((4095 * 1000 / Nat.sqrt (normHistMean s.average) : Nat) : Int) * 500) 1000 < 100
                then (100 : Int)
                else cdivPos (s.factor * 500 +
                  ((4095 * 1000 / Nat.sqrt (normHistMean s.average) : Nat) : Int) * 500) 1000)
            then maxNorm
            else (if cdivPos (s.factor * 500 +
                  ((4095 * 1000 / Nat.sqrt (normHistMean s.average) : Nat) : Int) * 500) 1000 < 100
                then (100 : Int)
                else cdivPos (s.factor * 500 +
                  ((4095 * 1000 / Nat.sqrt (normHistMean s.average) : Nat) : Int) * 500) 1000)),
        index := (s.index + 1) % 128,
        counter := 0,
        average := Function.update s.average ((s.index + 1) % 128) 0 } := by
  unfold normBlockDone
  rw [if_neg (by omega), if_pos hm]

/-- C6: with the 128-block history full, a call of `AudioNormalizer` on one
exact 4096-sample block accumulates the block's mean-square energy into the
current history slot; when the resulting history mean is positive the factor
becomes the 50/50 blend of the old factor and the target
`(INT16_MAX / 8) * 1000 / sqrt(mean)`, clamped between
`AudioMinNormalize = 100` and the configured maximum, and every sample is
scaled by the new factor with hard clamping into the int16 range. -/
theorem AudioNormalizer_block_spec (maxNorm : Int) (st : NormState)
    (samples : List Int) (hcnt : st.counter = 0) (hready : st.ready = 128)
    (hlen : samples.length = 4096) (helem : st.average st.index = 0)
    (hm : 0 < normHistMean (Function.update st.average st.index
      (samples.foldl normAccum 0))) :
    (AudioNormalizer maxNorm st samples).1.factor =
      (if maxNorm < (if cdivPos (st.factor * 500 +
            ((4095 * 1000 / Nat.sqrt (normHistMean (Function.update st.average st.index
              (samples.foldl normAccum 0))) : Nat) : Int) * 500) 1000 < 100
          then (100 : Int)
          else cdivPos (st.factor * 500 +
            ((4095 * 1000 / Nat.sqrt (normHistMean (Function.update st.average st.index
              (samples.foldl normAccum 0))) : Nat) : Int) * 500) 1000)
        then maxNorm
        else (if cdivPos (st.factor * 500 +
            ((4095 * 1000 / Nat.sqrt (normHistMean (Function.update st.average st.index
              (samples.foldl normAccum 0))) : Nat) : Int) * 500) 1000 < 100
          then (100 : Int)
          else cdivPos (st.factor * 500 +
            ((4095 * 1000 / Nat.sqrt (normHistMean (Function.update st.average st.index
              (samples.foldl normAccum 0))) : Nat) : Int) * 500) 1000)) ∧
    (AudioNormalizer maxNorm st samples).1.index = (st.index + 1) % 128 ∧
    (AudioNormalizer maxNorm st samples).1.counter = 0 ∧
    (AudioNormalizer maxNorm st samples).1.ready = 128 ∧
    (AudioNormalizer maxNorm st samples).1.average st.index =
      samples.foldl normAccum 0 ∧
    (AudioNormalizer maxNorm st samples).2 = samples.map (fun s =>
      clamp16 (cdivPos (s * (AudioNormalizer maxNorm st samples).1.factor) 1000)) ∧
    (100 ≤ maxNorm →
      100 ≤ (AudioNormalizer maxNorm st samples).1.factor ∧
      (AudioNormalizer maxNorm st samples).1.factor ≤ maxNorm) := by
  have hS : (AudioNormalizer maxNorm st samples).1 =
      normBlockDone maxNorm
        { st with
          average := Function.update st.average st.index
            (samples.foldl normAccum 0),
          counter := st.counter + min samples.length (4096 - st.counter) } := by
    show (normLoop maxNorm st samples, _).1 = _
    unfold normLoop
    rw [dif_pos (show st.counter < 4096 by omega)]
    rw [normLoopMain_block maxNorm st samples (by omega) hcnt hlen, helem]
  have hB := normBlockDone_full maxNorm
    { st with
      average := Function.update st.average st.index
        (samples.foldl normAccum 0),
      counter := st.counter + min samples.length (4096 - st.counter) }
    (by simpa using hready) (by simpa using hm)
  rw [hS, hB]
  have hidx : st.index ≠ (st.index + 1) % 128 := by omega
  refine ⟨rfl, rfl, rfl, by simpa using hready, ?_, ?_, ?_⟩
  · show (Function.update (Function.update st.average st.index
      (samples.foldl normAccum 0)) ((st.index + 1) % 128) 0) st.index = _
    rw [Function.update_noteq hidx, Function.update_same]
  · show (AudioNormalizer maxNorm st samples).2 = _
    rw [show (AudioNormalizer maxNorm st samples).2 = samples.map (fun s =>
      clamp16 (cdivPos (s * (AudioNormalizer maxNorm st samples).1.factor) 1000))
      from rfl, hS, hB]
  · intro hmax
    dsimp only
    constructor <;> split <;> split <;> omega

theorem foldl_normAccum_zeros (n : Nat) :
    (List.replicate n (0 : Int)).foldl normAccum 0 = 0 := by
  induction n with
  | zero => rfl
  | succ k ih => simpa [List.replicate_succ, normAccum] using ih

set_option maxRecDepth 100000 in
/-- C6 witness: the theorem instantiated on a concrete full-history state
(mean energy 127 > 0) and a concrete 4096-sample block, with the factor
landing inside [100, maxNormalize]. -/
theorem AudioNormalizer_block_spec_witness :
    0 < normHistMean (Function.update normWitState.average normWitState.index
      ((List.replicate 4096 (0 : Int)).foldl normAccum 0)) ∧
    100 ≤ (AudioNormalizer 3000 normWitState (List.replicate 4096 0)).1.factor ∧
    (AudioNormalizer 3000 normWitState (List.replicate 4096 0)).1.factor ≤ 3000 := by
  have hupd : Function.update normWitState.average normWitState.index
      ((List.replicate 4096 (0 : Int)).foldl normAccum 0) = normWitState.average := by
    rw [foldl_normAccum_zeros 4096]
    exact Function.update_eq_self 0 normWitState.average
  have hm : 0 < normHistMean (Function.update normWitState.average
      normWitState.index ((List.replicate 4096 (0 : Int)).foldl normAccum 0)) := by
    rw [hupd]
    decide
  refine ⟨hm, ?_⟩
  exact (AudioNormalizer_block_spec 3000 normWitState (List.replicate 4096 0)
    rfl rfl (List.length_replicate 4096 0) rfl hm).2.2.2.2.2.2 (by decide)

set_option maxRecDepth 8000 in
theorem AudioNormalizer_zeroBlock (maxNorm : Int) (i r : Nat) (f : Int) :
    AudioNormalizer maxNorm
      { average := fun _ => 0, index := i, ready := r, counter := 0, factor := f }
      (List.replicate 4096 (0 : Int)) =
      ({ average := fun _ => 0, index := (i + 1) % 128,
         ready := if r < 128 then r + 1 else r, counter := 0, factor := f },
       List.replicate 4096 (0 : Int)) := by
  have hblock := normLoopMain_block maxNorm
    { average := fun _ => 0, index := i, ready := r, counter := 0, factor := f }
    (List.replicate 4096 (0 : Int)) (by dsimp only; decide) rfl
    (List.length_replicate 4096 0)
  have hupd : Function.update (fun _ : Nat => (0 : Nat)) i
      ((List.replicate 4096 (0 : Int)).foldl normAccum 0) = fun _ => 0 := by
    rw [foldl_normAccum_zeros 4096]
    exact Function.update_eq_self i _
  have hS : (AudioNormalizer maxNorm
      { average := fun _ => 0, index := i, ready := r, counter := 0, factor := f }
      (List.replicate 4096 (0 : Int))).1 =
      { average := fun _ => 0, index := (i + 1) % 128,
        ready := if r < 128 then r + 1 else r, counter := 0, factor := f } := by
    show (normLoop maxNorm _ _, _).1 = _
    unfold normLoop
    rw [dif_pos (by dsimp only; decide)]
    rw [hblock]
    show normBlockDone maxNorm _ = _
    unfold normBlockDone
    dsimp only
    rw [hupd]
    by_cases hr : r < 128
    · rw [if_pos hr]
      dsimp only
      rw [if_pos hr]
      congr 1
      exact Function.update_eq_self _ _
    · rw [if_neg hr]
      rw [show normHistMean (fun _ => 0) = 0 from by decide]
      rw [if_neg (by omega)]
      dsimp only
      rw [if_neg hr]
      congr 1
      exact Function.update_eq_self _ _
  have hfac : (AudioNormalizer maxNorm
      { average := fun _ => 0, index := i, ready := r, counter := 0, factor := f }
      (List.replicate 4096 (0 : Int))).1.factor = f := by
    rw [hS]
  have hout : (AudioNormalizer maxNorm
      { average := fun _ => 0, index := i, ready := r, counter := 0, factor := f }
      (List.replicate 4096 (0 : Int))).2 = List.replicate 4096 (0 : Int) := by
    show (List.replicate 4096 (0 : Int)).map
      (fun s => clamp16 (cdivPos (s * (AudioNormalizer maxNorm
        { average := fun _ => 0, index := i, ready := r, counter := 0, factor := f }
        (List.replicate 4096 (0 : Int))).1.factor) 1000)) = _
    rw [hfac, List.map_replicate,
      show clamp16 (cdivPos ((0 : Int) * f) 1000) = 0 from by
        rw [zero_mul, cdivPos_zero]; decide]
  exact Prod.ext hS hout

theorem feedZeroBlocks_eq (maxNorm : Int) (k : Nat) :
    feedZeroBlocks maxNorm k =
      { average := fun _ => 0, index := k % 128, ready := min k 128,
        counter := 0, factor := 1000 } := by
  induction k with
  | zero => rfl
  | succ k ih =>
    show (AudioNormalizer maxNorm (feedZeroBlocks maxNorm k)
      (List.replicate 4096 (0 : Int))).1 = _
    rw [ih, AudioNormalizer_zeroBlock]
    have h1 : (k % 128 + 1) % 128 = (k + 1) % 128 := by omega
    have h2 : (if min k 128 < 128 then min k 128 + 1 else min k 128) =
        min (k + 1) 128 := by
      split <;> omega
    rw [h1, h2]

/-- C7 counterexample: after a reset, 130 all-zero 4096-sample blocks fill
the 128-entry history completely, yet the normalization factor is still the
reset value 1000 - not the floor `AudioMinNormalize = 100` the claim
predicts: the source updates the factor only when the history mean energy is
positive. -/
theorem AudioNormalizer_zero_blocks_factor_not_floor :
    (feedZeroBlocks 3000 130).ready = 128 ∧
    (feedZeroBlocks 3000 130).factor = 1000 ∧
    (feedZeroBlocks 3000 130).factor ≠ 100 := by
  rw [feedZeroBlocks_eq]
  refine ⟨rfl, rfl, by decide⟩

/-- C7 (amended): after a normalizer reset, feeding only all-zero
4096-sample blocks leaves the normalization factor at its reset value 1000
(it is never updated, because the zero history mean skips the factor
computation), also once the 128-block history is full. -/
theorem AudioNormalizer_zero_blocks_spec (maxNorm : Int) (k : Nat) :
    (feedZeroBlocks maxNorm k).factor = 1000 ∧
    (128 ≤ k → (feedZeroBlocks maxNorm k).ready = 128) := by
  rw [feedZeroBlocks_eq]
  exact ⟨rfl, fun h => by simp only; omega⟩

/-- C7 witness: the amended statement applied at 200 blocks. -/
theorem AudioNormalizer_zero_blocks_spec_witness :
    (feedZeroBlocks 3000 200).factor = 1000 ∧
    (feedZeroBlocks 3000 200).ready = 128 :=
  ⟨(AudioNormalizer_zero_blocks_spec 3000 200).1,
   (AudioNormalizer_zero_blocks_spec 3000 200).2 (by decide)⟩

theorem surroundFrame_isSome (c : Nat) (h3 : 3 ≤ c) (h8 : c ≤ 8)
    (g : Nat → Int) : (surroundFrame c g).isSome := by
  interval_cases c <;> simp [surroundFrame]

theorem AudioSurround2Stereo_isSome (c : Nat) (h3 : 3 ≤ c) (h8 : c ≤ 8) :
    ∀ (frames : Nat) (xs : List Int),
      (AudioSurround2Stereo c frames xs).isSome := by
  intro frames
  induction frames with
  | zero => intro xs; simp [AudioSurround2Stereo]
  | succ n ih =>
    intro xs
    rw [AudioSurround2Stereo]
    obtain ⟨⟨l, r⟩, hp⟩ := Option.isSome_iff_exists.mp
      (surroundFrame_isSome c h3 h8 (fun i => xs.getD i 0))
    rw [hp]
    obtain ⟨rest, hr⟩ := Option.isSome_iff_exists.mp (ih (xs.drop c))
    rw [hr]
    simp

/-- C9 (amended): for channel counts in 1..8, every (input, output) pair not
among the handled conversion cases (identity, 1 <-> 2, N -> 2 for N in 3..8,
and the listed upmix cases) makes `AudioResample` fill the output with
`frames * outChannels` zero samples and report an error, without crashing;
and `AudioSurround2Stereo` never reaches its `abort()` for any input channel
count in 3..8.  (Outside 1..8 the discriminant `in * 8 + out` collides with
handled cases: see the counterexample at (2, 10).) -/
theorem AudioResample_unhandled_spec :
    (∀ inChan outChan frames : Nat, ∀ xs : List Int,
      1 ≤ inChan → inChan ≤ 8 → 1 ≤ outChan → outChan ≤ 8 →
      inChan ≠ outChan →
      ((inChan, outChan) : Nat × Nat) ∉
        ([(2, 1), (1, 2), (3, 2), (4, 2), (5, 2), (6, 2), (7, 2), (8, 2),
          (5, 6), (3, 8), (5, 8), (6, 8)] : List (Nat × Nat)) →
      AudioResample inChan frames xs outChan =
        some (List.replicate (frames * outChan) 0, true)) ∧
    (∀ c frames : Nat, ∀ xs : List Int, 3 ≤ c → c ≤ 8 →
      (AudioSurround2Stereo c frames xs).isSome) := by
  constructor
  · intro inChan outChan frames xs h1 h2 h3 h4 hne hmem
    interval_cases inChan <;> interval_cases outChan <;> first
    | (exact absurd hmem (by decide))
    | (exact absurd rfl hne)
    | rfl
  · intro c frames xs h3 h8
    exact AudioSurround2Stereo_isSome c h3 h8 frames xs

/-- C9 witness: the unhandled pair (4 in, 3 out) yields six zero samples and
the error flag; the 5.1 downmix is `some` (no abort). -/
theorem AudioResample_unhandled_spec_witness :
    AudioResample 4 2 [0, 0, 0, 0, 0, 0, 0, 0] 3 =
      some (List.replicate (2 * 3) 0, true) ∧
    (AudioSurround2Stereo 6 1 [1, 2, 3, 4, 5, 6]).isSome :=
  ⟨AudioResample_unhandled_spec.1 4 3 2 [0, 0, 0, 0, 0, 0, 0, 0]
      (by decide) (by decide) (by decide) (by decide) (by decide) (by decide),
   AudioResample_unhandled_spec.2 6 1 [1, 2, 3, 4, 5, 6] (by decide) (by decide)⟩
